import Mathlib

/-!
Verification development for a credential-caching microservice (tokman).

The source is a single Flask application (`src/tokman/app.py`).  The
definitions below are a shallow embedding of its core:

* `Token` embeds the SQLAlchemy model `Token` (table `tokens`); timestamps
  are modelled as integers counting seconds (UTC).
* `Token.is_expired` embeds the method `Token.is_expired`.  The Python code
  computes `(self.expires_at - datetime.utcnow()).seconds`, the *seconds
  component* of the normalized `timedelta` (an integer in `[0, 86400)`),
  which for a difference of `d` whole seconds equals `d % 86400` with a
  nonnegative remainder.  `tdSeconds` embeds that attribute.
* `GithubIntegration` embeds the external GitHub client used by
  `get_token`: `get_installation` (an installation id, `none` when the
  lookup yields nothing, and the code also treats a falsy id `0` as
  missing) and `get_access_token` (issues a token with its expiry).
* `get_token` embeds the module-level function `get_token`.
* `DB` embeds the committed database state; `DB.query_first` embeds
  `Token.query.filter_by(namespace=..., repository=...).first()` and
  `DB.commit` embeds `db.session.commit()` for the single record touched
  by a request (update if the key is present, insert otherwise).
* `AccessToken.get` embeds the request handler `AccessToken.get`.  It
  returns the HTTP response, the committed database after the request
  (the error path returns before `db.session.commit()`, so the database
  is unchanged there), and the number of `get_access_token` calls the
  request performed.
* `thread_step` / `Sys.step` / `run2` model two concurrent executions of
  `AccessToken.get` against the shared database.  The handler has no lock,
  so each execution is split at its only shared-state interaction points:
  first the read-and-policy-check phase, then the issue-and-commit phase,
  and an arbitrary schedule interleaves the two threads.
-/

namespace Tokman

/-- Embeds the SQLAlchemy model `Token`: columns `namespace`, `repository`
(non-nullable strings), `token` (nullable string) and `expires_at`
(nullable datetime, modelled as seconds UTC).  The auto-increment `id`
primary key plays no role in the logic and is omitted. -/
structure Token where
  «namespace» : String
  repository : String
  token : Option String
  expires_at : Option Int
deriving DecidableEq, Repr

/-- The `seconds` attribute of a Python `timedelta` of `d` whole seconds:
the timedelta is normalized to `days` (possibly negative) plus a
`seconds` component in `[0, 86400)`, so `seconds = d % 86400` with a
nonnegative remainder. -/
def tdSeconds (d : Int) : Int := d % 86400

/-- Embeds `Token.is_expired`:
`self.expires_at is None or self.token is None or
 (self.expires_at - datetime.utcnow()).seconds < token_renew_at`,
with the three disjuncts evaluated in this order. -/
def Token.is_expired (t : Token) (now token_renew_at : Int) : Bool :=
  match t.expires_at, t.token with
  | none, _ => true
  | some _, none => true
  | some e, some _ => decide (tdSeconds (e - now) < token_renew_at)

/-- Embeds the `GithubIntegration` client consumed by `get_token`:
`get_installation` yields an installation id (`none` when absent) and
`get_access_token` yields a token string with its absolute expiry. -/
structure GithubIntegration where
  get_installation : String → String → Option Nat
  get_access_token : Nat → String × Int

/-- Embeds the module-level `get_token(namespace, repository)`:
it raises `AppNotInstalledError` when the installation id is falsy
(`None` or `0`) without ever calling `get_access_token`, and otherwise
returns `(inst_auth.token, inst_auth.expires_at)`. -/
def get_token (gi : GithubIntegration) (ns repo : String) :
    Except String (String × Int) :=
  match gi.get_installation ns repo with
  | none => .error ("App is not installed on " ++ ns ++ "/" ++ repo)
  | some 0 => .error ("App is not installed on " ++ ns ++ "/" ++ repo)
  | some i => .ok (gi.get_access_token i)

/-- The committed database: the rows of the `tokens` table. -/
structure DB where
  rows : List Token
deriving DecidableEq, Repr

/-- Embeds `Token.query.filter_by(namespace=namespace,
repository=repository).first()`. -/
def DB.query_first (db : DB) (ns repo : String) : Option Token :=
  db.rows.find? (fun t => t.«namespace» == ns && t.repository == repo)

/-- Embeds `db.session.commit()` for the one record a request touched:
the row for the record's key is updated in place if present, otherwise
the record is inserted. -/
def DB.commit (db : DB) (t : Token) : DB :=
  if (db.query_first t.«namespace» t.repository).isSome then
    ⟨db.rows.map (fun r =>
      if r.«namespace» == t.«namespace» && r.repository == t.repository then t else r)⟩
  else
    ⟨db.rows ++ [t]⟩

/-- The lookup-or-create step at the top of `AccessToken.get`: the query,
and on a miss `Token(namespace=namespace, repository=repository)` with
both nullable columns empty. -/
def lookup_record (db : DB) (ns repo : String) : Token :=
  match db.query_first ns repo with
  | some t => t
  | none => ⟨ns, repo, none, none⟩

/-- The store's lookup-or-insert operation on the key: return the existing
record, or create the empty record and insert it. -/
def getOrCreate (db : DB) (ns repo : String) : Token × DB :=
  match db.query_first ns repo with
  | some t => (t, db)
  | none => (⟨ns, repo, none, none⟩, ⟨db.rows ++ [⟨ns, repo, none, none⟩]⟩)

/-- The body of an HTTP response of the handler: either the success
payload `{"repository": ..., "namespace": ..., "access_token": ...}`, or
the error payload `{"error": ...}`. -/
inductive Response where
  | ok (repository «namespace» : String) (access_token : Option String)
  | err (error : String)
deriving DecidableEq, Repr

/-- The HTTP status carried by a `Response`: a plain return from a
flask-restx resource is a 200, and the error path returns an explicit
400. -/
def Response.status : Response → Nat
  | .ok _ _ _ => 200
  | .err _ => 400

/-- Embeds the handler `AccessToken.get(self, namespace, repository)`.
Returns the response body, the committed database after the request
(the `AppNotInstalledError` path returns before `db.session.commit()`,
leaving the database unchanged), and how many times the request called
`get_access_token`. -/
def AccessToken.get (gi : GithubIntegration) (db : DB) (now token_renew_at : Int)
    (ns repo : String) : Response × DB × Nat :=
  if (lookup_record db ns repo).is_expired now token_renew_at then
    match get_token gi ns repo with
    | .error e => (.err ("Failed to retrieve a token: " ++ e), db, 0)
    | .ok (tok, exp) =>
        (.ok repo ns (some tok),
         db.commit { lookup_record db ns repo with token := some tok, expires_at := some exp },
         1)
  else
    (.ok repo ns (lookup_record db ns repo).token, db.commit (lookup_record db ns repo), 0)

/-! ### Concurrency model

The handler itself takes no lock, so two concurrent requests for the same
key interleave freely on the shared database.  One execution of
`AccessToken.get` is split into its two shared-state phases: the
read-and-policy-check phase (query, possible creation, `is_expired`), and
— only when the record looked expired — the issue-and-commit phase
(`get_token`, field assignment, `db.session.commit()`). -/

/-- The control state of one in-flight request: not yet started, past the
expiry check and about to call the issuer with its private view of the
record, or finished with a response. -/
inductive ThreadState where
  | start
  | renew (t : Token)
  | finished (r : Response)
deriving DecidableEq, Repr

/-- One atomic phase of one request against the shared database.  Returns
the new database, the new control state, and the number of
`get_access_token` calls made by this phase. -/
def thread_step (gi : GithubIntegration) (now token_renew_at : Int)
    (ns repo : String) (db : DB) (ts : ThreadState) : DB × ThreadState × Nat :=
  match ts with
  | .start =>
      if (lookup_record db ns repo).is_expired now token_renew_at then
        (db, .renew (lookup_record db ns repo), 0)
      else
        (db.commit (lookup_record db ns repo),
         .finished (.ok repo ns (lookup_record db ns repo).token), 0)
  | .renew token =>
      match get_token gi ns repo with
      | .error e => (db, .finished (.err ("Failed to retrieve a token: " ++ e)), 0)
      | .ok (tok, exp) =>
          (db.commit { token with token := some tok, expires_at := some exp },
           .finished (.ok repo ns (some tok)), 1)
  | .finished r => (db, .finished r, 0)

/-- The shared state of two concurrent requests for the same key: the
database, each thread's control state, and the total number of
`get_access_token` calls made so far. -/
structure Sys where
  db : DB
  t1 : ThreadState
  t2 : ThreadState
  issuer_calls : Nat
deriving DecidableEq, Repr

/-- Run one atomic phase of the chosen thread (`false` = thread 1,
`true` = thread 2). -/
def Sys.step (gi : GithubIntegration) (now token_renew_at : Int)
    (ns repo : String) (s : Sys) (which : Bool) : Sys :=
  if which then
    { db := (thread_step gi now token_renew_at ns repo s.db s.t2).1,
      t1 := s.t1,
      t2 := (thread_step gi now token_renew_at ns repo s.db s.t2).2.1,
      issuer_calls := s.issuer_calls + (thread_step gi now token_renew_at ns repo s.db s.t2).2.2 }
  else
    { db := (thread_step gi now token_renew_at ns repo s.db s.t1).1,
      t1 := (thread_step gi now token_renew_at ns repo s.db s.t1).2.1,
      t2 := s.t2,
      issuer_calls := s.issuer_calls + (thread_step gi now token_renew_at ns repo s.db s.t1).2.2 }

/-- Run a schedule: an arbitrary interleaving of the two threads' phases. -/
def run2 (gi : GithubIntegration) (now token_renew_at : Int)
    (ns repo : String) : Sys → List Bool → Sys
  | s, [] => s
  | s, which :: rest => run2 gi now token_renew_at ns repo
      (s.step gi now token_renew_at ns repo which) rest

/-- `1` while a thread may still call `get_access_token` in the future
(it has not finished), `0` once it has finished. -/
def ThreadState.pending : ThreadState → Nat
  | .finished _ => 0
  | _ => 1

/-- Upper bound tracking for issuer calls: calls already made plus the
threads that may still make one. -/
def Sys.budget (s : Sys) : Nat := s.issuer_calls + s.t1.pending + s.t2.pending

/-! ### Invariant predicates -/

/-- The record-level invariant of §3 of the spec: the nullable columns
`token` and `expires_at` are both present or both absent. -/
def Token.paired (t : Token) : Prop := t.token.isSome = t.expires_at.isSome

/-- Every committed row satisfies `Token.paired`. -/
def DB.wf (db : DB) : Prop := ∀ t ∈ db.rows, t.paired

/-- Embeds the column constraints declared on the `tokens` table: the
columns `namespace`, `repository` and `token` each carry `unique=True`,
so no two rows share a namespace, no two rows share a repository, and no
two rows share a non-null token (SQL `UNIQUE` on the nullable `token`
column exempts NULLs). -/
def schema_unique (db : DB) : Prop :=
  db.rows.Pairwise (fun a b => a.«namespace» ≠ b.«namespace») ∧
  db.rows.Pairwise (fun a b => a.repository ≠ b.repository) ∧
  db.rows.Pairwise (fun a b => a.token = none ∨ a.token ≠ b.token)

/-! ### Concrete fixtures used by the scenario theorems -/

/-- An issuer on which the app is installed everywhere (installation id 1)
and which issues the token `"abc"` expiring at absolute time 3600. -/
def gi0 : GithubIntegration := ⟨fun _ _ => some 1, fun _ => ("abc", 3600)⟩

/-- An issuer on which the app is installed nowhere. -/
def gi_uninstalled : GithubIntegration := ⟨fun _ _ => none, fun _ => ("zzz", 0)⟩

/-- The empty database. -/
def db0 : DB := ⟨[]⟩

/-- The database state committed by the first call of the renewal
scenario: one row for `org/repo` holding token `"abc"` expiring at 3600. -/
def db_abc : DB := ⟨[⟨"org", "repo", some "abc", some 3600⟩]⟩

/-- A two-row database satisfying the column constraints of the schema. -/
def db_pair : DB := ⟨[⟨"a", "r1", some "t1", some 10⟩, ⟨"b", "r2", none, none⟩]⟩

/-! ### Helper lemmas -/

/-- A record that `is_expired` deems still valid necessarily has a token. -/
theorem token_isSome_of_not_expired {t : Token} {now tra : Int}
    (h : t.is_expired now tra = false) : t.token.isSome = true := by
  cases he : t.expires_at <;> cases ht : t.token <;>
    simp [Token.is_expired, he, ht] at h ⊢

/-- `get_token` only fails with the not-installed message, and only when
the installation id is falsy. -/
theorem get_token_error_elim {gi : GithubIntegration} {ns repo e : String}
    (h : get_token gi ns repo = .error e) :
    e = "App is not installed on " ++ ns ++ "/" ++ repo ∧
      (gi.get_installation ns repo = none ∨ gi.get_installation ns repo = some 0) := by
  unfold get_token at h
  cases hi : gi.get_installation ns repo with
  | none =>
      rw [hi] at h
      exact ⟨(Except.error.inj h).symm, .inl rfl⟩
  | some n =>
      cases n with
      | zero =>
          rw [hi] at h
          exact ⟨(Except.error.inj h).symm, .inr rfl⟩
      | succ m =>
          rw [hi] at h
          exact absurd h (by simp)

/-- The record `AccessToken.get` works on is a committed row or the fresh
empty record, so it satisfies the pairing invariant of a well-formed
database. -/
theorem lookup_record_paired {db : DB} (hdb : DB.wf db) (ns repo : String) :
    Token.paired (lookup_record db ns repo) := by
  unfold lookup_record
  cases hq : db.query_first ns repo with
  | some t => exact hdb t (List.mem_of_find?_eq_some hq)
  | none => rfl

/-- `db.session.commit` of a record satisfying the pairing invariant
preserves well-formedness of the database. -/
theorem commit_wf {db : DB} {t : Token} (hdb : DB.wf db) (ht : Token.paired t) :
    DB.wf (db.commit t) := by
  unfold DB.wf DB.commit
  split
  · intro r hr
    simp only [List.mem_map] at hr
    obtain ⟨a, ha, rfl⟩ := hr
    split
    · exact ht
    · exact hdb a ha
  · intro r hr
    rcases List.mem_append.mp hr with h | h
    · exact hdb r h
    · rw [List.mem_singleton.mp h]
      exact ht

/-- One phase of one thread makes at most as many issuer calls as the
thread's remaining budget allows, and spends budget accordingly. -/
theorem thread_step_budget {gi : GithubIntegration} {now tra : Int}
    {ns repo : String} {db : DB} (ts : ThreadState) :
    (thread_step gi now tra ns repo db ts).2.2 +
      ((thread_step gi now tra ns repo db ts).2.1).pending ≤ ts.pending := by
  cases ts with
  | start =>
      simp only [thread_step]
      split <;> simp [ThreadState.pending]
  | renew t =>
      simp only [thread_step]
      cases hgt : get_token gi ns repo with
      | error e => simp [hgt, ThreadState.pending]
      | ok p => obtain ⟨tok, exp⟩ := p; simp [hgt, ThreadState.pending]
  | finished r => simp [thread_step, ThreadState.pending]

/-- One interleaving step never increases the issuer-call budget. -/
theorem step_budget_le (gi : GithubIntegration) (now tra : Int)
    (ns repo : String) (s : Sys) (w : Bool) :
    (s.step gi now tra ns repo w).budget ≤ s.budget := by
  have h1 := @thread_step_budget gi now tra ns repo s.db s.t1
  have h2 := @thread_step_budget gi now tra ns repo s.db s.t2
  cases w <;> simp [Sys.step, Sys.budget] <;> omega

/-- Running any schedule never increases the issuer-call budget. -/
theorem run2_budget_le (gi : GithubIntegration) (now tra : Int)
    (ns repo : String) (sched : List Bool) (s : Sys) :
    (run2 gi now tra ns repo s sched).budget ≤ s.budget := by
  induction sched generalizing s with
  | nil => exact le_refl _
  | cons w rest ih =>
      exact le_trans (ih _) (step_budget_le gi now tra ns repo s w)

/-! ### Claim theorems -/

/-- Claim C1: the claim states that `is_expired` is true exactly when the
remaining lifetime `expiresAt - now` in seconds is below the threshold,
and in particular that a record whose expiry lies in the past is expired.
The code computes the `seconds` *component* of the Python `timedelta`
(`(expires_at - utcnow()).seconds`, i.e. the difference modulo 86400)
rather than the signed total: at a record whose expiry passed 10 seconds
ago the component is 86390, so the code reports the token as NOT expired
although its remaining lifetime (-10 s) is far below the threshold 60. -/
theorem is_expired_ignores_sign_of_remaining_lifetime :
    Token.is_expired ⟨"org", "repo", some "tok", some 990⟩ 1000 60 = false ∧
      (990 : Int) - 1000 < 60 := by
  decide

/-- Claim C2, counterexample: two concurrent `AccessToken.get` executions
for the key `org/repo`, both observing the expired (absent) record of the
empty database, each call the issuer: under the schedule
`[t1-check, t2-check, t1-renew, t2-renew]` the issuer is invoked twice,
not exactly once — the handler takes no per-key lock. -/
theorem concurrent_renewal_issues_twice :
    run2 gi0 0 60 "org" "repo" ⟨db0, .start, .start, 0⟩ [false, true, false, true] =
      ⟨db_abc, .finished (.ok "repo" "org" (some "abc")),
       .finished (.ok "repo" "org" (some "abc")), 2⟩ ∧ (2 : Nat) ≠ 1 := by
  decide

/-- Claim C2, amended: with no single-flight mechanism in the handler,
two concurrent `AccessToken.get` executions for the same key may each
invoke the issuer; under every schedule the issuer is invoked at most
once per caller (at most 2 times), rather than exactly once in total. -/
theorem concurrent_renewal_at_most_one_call_per_thread
    (gi : GithubIntegration) (now tra : Int) (ns repo : String) (db : DB)
    (sched : List Bool) :
    (run2 gi now tra ns repo ⟨db, .start, .start, 0⟩ sched).issuer_calls ≤ 2 := by
  have h := run2_budget_le gi now tra ns repo sched ⟨db, .start, .start, 0⟩
  simp [Sys.budget, ThreadState.pending] at h
  omega

/-- Claim C3, counterexample: the claim asserts that *every* request for a
key on which the integration is not installed yields an error result.
But when a still-valid token is cached for the key, the handler never
consults the issuer and returns the cached token with a 200 payload:
with the integration uninstalled everywhere, a request at time 10 against
the database holding `("abc", 3600)` for `org/repo` succeeds. -/
theorem not_installed_with_valid_cache_returns_ok :
    gi_uninstalled.get_installation "org" "repo" = none ∧
    AccessToken.get gi_uninstalled db_abc 10 60 "org" "repo" =
      (.ok "repo" "org" (some "abc"), db_abc, 0) := by
  decide

/-- Claim C3, amended: for every key on which `get_installation` reports
no installation *and whose looked-up record is expired*, the handler
returns the error result carrying the failure reason, leaves the
committed database unchanged, and never calls `get_access_token`. -/
theorem not_installed_expired_leaves_db_and_errors
    (gi : GithubIntegration) (db : DB) (now tra : Int) (ns repo : String)
    (hni : gi.get_installation ns repo = none)
    (hexp : (lookup_record db ns repo).is_expired now tra = true) :
    AccessToken.get gi db now tra ns repo =
      (.err ("Failed to retrieve a token: " ++ ("App is not installed on " ++ ns ++ "/" ++ repo)),
       db, 0) := by
  simp [AccessToken.get, hexp, get_token, hni]

/-- Claim C3, amended, witness at a concrete input: empty database,
integration installed nowhere. -/
theorem not_installed_expired_leaves_db_and_errors_witness :
    AccessToken.get gi_uninstalled db0 0 60 "org" "repo" =
      (.err ("Failed to retrieve a token: " ++ ("App is not installed on " ++ "org" ++ "/" ++ "repo")),
       db0, 0) :=
  not_installed_expired_leaves_db_and_errors gi_uninstalled db0 0 60 "org" "repo"
    rfl (by decide)

/-- Claim C4: starting from the empty database at time 0 with threshold 60
and an issuer returning `("abc", 3600)`, the first request returns the
payload `{repository := "repo", namespace := "org", access_token := "abc"}`
with one issuer call; a second request at time 10 returns the same token
with no issuer call; a request at time 3550 performs a fresh issuer call. -/
theorem renewal_scenario_abc :
    AccessToken.get gi0 db0 0 60 "org" "repo" =
      (.ok "repo" "org" (some "abc"), db_abc, 1) ∧
    AccessToken.get gi0 db_abc 10 60 "org" "repo" =
      (.ok "repo" "org" (some "abc"), db_abc, 0) ∧
    (AccessToken.get gi0 db_abc 3550 60 "org" "repo").2.2 = 1 := by
  decide

/-- Claim C5: a record with `expires_at` absent or `token` absent is
expired for every current time and every threshold (the first two rules
of the decision order in `Token.is_expired`). -/
theorem is_expired_of_absent_field (t : Token) (now tra : Int)
    (h : t.expires_at = none ∨ t.token = none) :
    t.is_expired now tra = true := by
  cases he : t.expires_at <;> cases ht : t.token <;>
    simp [Token.is_expired, he, ht] at h ⊢

/-- Claim C5, witness: the freshly created record, with both fields
absent, at time 0 and threshold 60. -/
theorem is_expired_of_absent_field_witness :
    Token.is_expired ⟨"org", "repo", none, none⟩ 0 60 = true :=
  is_expired_of_absent_field ⟨"org", "repo", none, none⟩ 0 60 (.inl rfl)

/-- Claim C6: the lookup-or-insert step called twice with the same key
never produces two distinct records: the second call returns the record
of the first call and leaves the database unchanged. -/
theorem getOrCreate_twice_same_record (db : DB) (ns repo : String) :
    getOrCreate (getOrCreate db ns repo).2 ns repo =
      ((getOrCreate db ns repo).1, (getOrCreate db ns repo).2) := by
  cases hq : db.query_first ns repo with
  | some t =>
      simp [getOrCreate, hq]
  | none =>
      have hq2 : DB.query_first ⟨db.rows ++ [⟨ns, repo, none, none⟩]⟩ ns repo
          = some ⟨ns, repo, none, none⟩ := by
        unfold DB.query_first at hq ⊢
        rw [List.find?_append, hq]
        simp
      simp [getOrCreate, hq, hq2]

/-- Claim C7: every response of the handler is either the 200 payload
carrying exactly the fields `repository`, `namespace`, `access_token`
(with the path parameters echoed back), or the 400 payload
`{"error": "Failed to retrieve a token: <reason>"}` with the
not-installed reason — and the latter occurs only when `get_installation`
reported a falsy installation id for the key. -/
theorem response_shape (gi : GithubIntegration) (db : DB) (now tra : Int)
    (ns repo : String) :
    (∃ tk, (AccessToken.get gi db now tra ns repo).1 = .ok repo ns tk ∧
      ((AccessToken.get gi db now tra ns repo).1).status = 200) ∨
    ((AccessToken.get gi db now tra ns repo).1 =
        .err ("Failed to retrieve a token: " ++
          ("App is not installed on " ++ ns ++ "/" ++ repo)) ∧
      ((AccessToken.get gi db now tra ns repo).1).status = 400 ∧
      (gi.get_installation ns repo = none ∨ gi.get_installation ns repo = some 0)) := by
  unfold AccessToken.get
  split
  · cases hgt : get_token gi ns repo with
    | error e =>
        obtain ⟨he, hfalsy⟩ := get_token_error_elim hgt
        right
        subst he
        simp [hgt, Response.status, hfalsy]
    | ok p =>
        obtain ⟨tok, exp⟩ := p
        left
        exact ⟨some tok, by simp [hgt], by simp [hgt, Response.status]⟩
  · left
    exact ⟨(lookup_record db ns repo).token, rfl, rfl⟩

/-- Claim C8: the handler preserves the invariant that in every committed
row `token` and `expires_at` are both present or both absent — a
successful renewal sets both fields before the commit, and the error path
commits nothing. -/
theorem access_token_get_preserves_pairing (gi : GithubIntegration) (db : DB)
    (now tra : Int) (ns repo : String) (hdb : DB.wf db) :
    DB.wf (AccessToken.get gi db now tra ns repo).2.1 := by
  unfold AccessToken.get
  split
  · cases hgt : get_token gi ns repo with
    | error e => simp only [hgt]; exact hdb
    | ok p =>
        obtain ⟨tok, exp⟩ := p
        simp only [hgt]
        exact commit_wf hdb rfl
  · exact commit_wf hdb (lookup_record_paired hdb ns repo)

/-- Claim C8, witness: one renewing request against the empty database. -/
theorem access_token_get_preserves_pairing_witness :
    DB.wf (AccessToken.get gi0 db0 0 60 "org" "repo").2.1 :=
  access_token_get_preserves_pairing gi0 db0 0 60 "org" "repo"
    (fun t ht => absurd ht (by simp [db0]))

/-- Claim C9: under the column constraints of the `tokens` table
(`unique=True` on each of `namespace`, `repository` and `token`
individually, not merely on the pair), any two distinct rows differ in
namespace, differ in repository, and their non-null tokens differ — so
two different repositories under the same namespace can never both be
stored. -/
theorem schema_unique_separates_rows (db : DB) (h : schema_unique db)
    (r1 r2 : Token) (h1 : r1 ∈ db.rows) (h2 : r2 ∈ db.rows) (hne : r1 ≠ r2) :
    r1.«namespace» ≠ r2.«namespace» ∧ r1.repository ≠ r2.repository ∧
      (r1.token = none ∨ r1.token ≠ r2.token) := by
  obtain ⟨hn, hr, ht⟩ := h
  refine ⟨hn.forall (fun a b hab => hab.symm) h1 h2 hne,
          hr.forall (fun a b hab => hab.symm) h1 h2 hne,
          ht.forall ?_ h1 h2 hne⟩
  intro a b hab
  rcases hab with hnone | hneq
  · cases hb : b.token with
    | none => exact .inl rfl
    | some x => exact .inr (by simp [hnone, hb])
  · exact .inr (Ne.symm hneq)

/-- Claim C9, witness: the two rows of `db_pair` under the schema
constraints. -/
theorem schema_unique_separates_rows_witness :
    Token.«namespace» ⟨"a", "r1", some "t1", some 10⟩ ≠
      Token.«namespace» ⟨"b", "r2", none, none⟩ ∧
    Token.repository ⟨"a", "r1", some "t1", some 10⟩ ≠
      Token.repository ⟨"b", "r2", none, none⟩ ∧
    (Token.token ⟨"a", "r1", some "t1", some 10⟩ = none ∨
      Token.token ⟨"a", "r1", some "t1", some 10⟩ ≠
        Token.token ⟨"b", "r2", none, none⟩) :=
  schema_unique_separates_rows db_pair (by unfold schema_unique; decide)
    ⟨"a", "r1", some "t1", some 10⟩ ⟨"b", "r2", none, none⟩
    (by decide) (by decide) (by decide)

/-- Claim C10: whenever the handler returns the 200 success payload, its
`access_token` field is present — a record with an absent token is
classified expired, so the success return is reached only with a token. -/
theorem ok_response_has_token (gi : GithubIntegration) (db : DB)
    (now tra : Int) (ns repo rep nsp : String) (tk : Option String)
    (db2 : DB) (c : Nat)
    (h : AccessToken.get gi db now tra ns repo = (.ok rep nsp tk, db2, c)) :
    tk.isSome = true := by
  unfold AccessToken.get at h
  split at h
  · cases hgt : get_token gi ns repo with
    | error e =>
        rw [hgt] at h
        exact absurd h (by simp)
    | ok p =>
        obtain ⟨tok, exp⟩ := p
        rw [hgt] at h
        obtain ⟨hresp, -⟩ := Prod.mk.injEq .. ▸ h
        cases hresp
        rfl
  · next hexp =>
      obtain ⟨hresp, -⟩ := Prod.mk.injEq .. ▸ h
      cases hresp
      exact token_isSome_of_not_expired (Bool.not_eq_true _ ▸ hexp)

/-- Claim C10, witness: the first request of the renewal scenario. -/
theorem ok_response_has_token_witness : (some "abc" : Option String).isSome = true :=
  ok_response_has_token gi0 db0 0 60 "org" "repo" "repo" "org" (some "abc")
    db_abc 1 (by decide)

end Tokman
